import Mathlib

/-!
Verification of the authentication logic generated by the GAIA setup script
(src/setup_project.py). The script writes two templates that contain real
logic: a FastAPI backend (backend/app/main.py, written by
create_backend_files) with an educational-email validator, an in-memory
user store and register/login endpoints, and a Streamlit frontend
(streamlit_app/app.py, written by create_frontend_files) with a
client-side registration form. This file embeds that logic shallowly:
strings are Lean strings, the Python dict users_db is an association
list, HTTPException results are an error structure carrying status code
and detail message, and each endpoint is a pure function threading the
store explicitly.
-/

namespace GAIA

/-- Embedding of Python str.lower as used by the generated code: ASCII
case folding of every character (Char.toLower). All strings the
templates compare are ASCII. -/
def lowerStr (s : String) : String :=
  String.mk (s.toList.map Char.toLower)

/-- Embedding of the Python expression email.split('@')[-1]: the text
after the last '@', or the whole string when no '@' occurs. -/
def domainPart (email : String) : String :=
  String.mk ((email.toList.reverse.takeWhile (fun c => c ≠ '@')).reverse)

/-- The allow-list of validate_edu_email in the backend template
(backend/app/main.py line 259). -/
def allowed_domains : List String :=
  [".edu", ".ac.", ".edu.in", ".school.nz", ".ac.uk", ".edu.au"]

/-- Embedding of validate_edu_email (backend template): lowercase the
part after the last '@' and test whether any allow-list entry occurs in
it as a contiguous substring (Python operator in). -/
def validate_edu_email (email : String) : Bool :=
  let domain := lowerStr (domainPart email)
  allowed_domains.any (fun d => decide (d.toList <:+: domain.toList))

/-- Modelled from the spec: hash_password in the backend template calls
the external passlib bcrypt CryptContext, whose implementation is not
part of this repository. Per the spec it is a one-way salted hash whose
verification succeeds exactly on the original password; it is modelled
here as a deterministic injective encoding (a bcrypt-style tag followed
by the password). -/
def hash_password (password : String) : String :=
  String.mk ('$' :: '2' :: 'b' :: '$' :: password.toList)

/-- Modelled from the spec: verify_password checks a plaintext password
against a stored hash, succeeding exactly when the hash was derived from
that password. -/
def verify_password (plain hashed : String) : Bool :=
  hashed == hash_password plain

/-- The value stored in users_db for a registered email (backend
template, register, lines 294-300). created_at is an abstract timestamp. -/
structure Account where
  full_name : String
  password_hash : String
  role : String
  institution : String
  created_at : Nat
deriving DecidableEq, Repr

/-- Body of POST /api/auth/register (pydantic model UserRegister). -/
structure UserRegister where
  full_name : String
  email : String
  password : String
  role : String
  institution : String
deriving DecidableEq, Repr

/-- Body of POST /api/auth/login (pydantic model UserLogin). -/
structure UserLogin where
  email : String
  password : String
deriving DecidableEq, Repr

/-- An HTTPException raised by the backend: status code plus detail. -/
structure ApiError where
  status : Nat
  detail : String
deriving DecidableEq, Repr

/-- The HTTPException raised when validate_edu_email rejects the email
(backend template line 289). -/
def invalidEmailDomainErr : ApiError :=
  ⟨400, "Please use a valid educational email address (.edu, .ac.* domains)"⟩

/-- The HTTPException raised when the email is already a key of users_db
(backend template line 292). -/
def duplicateAccountErr : ApiError :=
  ⟨400, "User with this email already exists"⟩

/-- The HTTPException raised by login for a missing user or a wrong
password (backend template line 312): one shared status and message. -/
def invalidCredentialsErr : ApiError :=
  ⟨401, "Invalid email or password"⟩

/-- Success payload of POST /api/auth/register (lines 302-306). -/
structure RegisterResponse where
  message : String
  email : String
  role : String
deriving DecidableEq, Repr

/-- Success payload of POST /api/auth/login (lines 314-319). -/
structure LoginResponse where
  message : String
  email : String
  role : String
  full_name : String
deriving DecidableEq, Repr

/-- The users_db dict: an association list from email to Account, newest
binding first. -/
abbrev Store := List (String × Account)

/-- Dict lookup users_db.get(email): the most recent binding for an
exactly equal key. -/
def lookup : Store → String → Option Account
  | [], _ => none
  | (e, a) :: rest, email => if e = email then some a else lookup rest email

/-- Embedding of the register endpoint (backend template lines 286-306).
The store is threaded explicitly; now stands for datetime.utcnow(). The
checks run in source order: email validation, then duplicate key, then
insertion. -/
def register (db : Store) (user : UserRegister) (now : Nat) :
    Store × Except ApiError RegisterResponse :=
  if !(validate_edu_email user.email) then
    (db, .error invalidEmailDomainErr)
  else if (lookup db user.email).isSome then
    (db, .error duplicateAccountErr)
  else
    ((user.email,
       ⟨user.full_name, hash_password user.password, user.role,
        user.institution, now⟩) :: db,
     .ok ⟨"Registration successful", user.email, user.role⟩)

/-- Embedding of the login endpoint (backend template lines 308-319):
look the email up in users_db; if absent or the password does not
verify, raise the single invalid-credentials error; otherwise return
the stored role and full name. The store is returned unchanged. -/
def login (db : Store) (ld : UserLogin) :
    Store × Except ApiError LoginResponse :=
  match lookup db ld.email with
  | none => (db, .error invalidCredentialsErr)
  | some user =>
    if !(verify_password ld.password user.password_hash) then
      (db, .error invalidCredentialsErr)
    else
      (db, .ok ⟨"Login successful", ld.email, user.role, user.full_name⟩)

/-- The client-side allow-list in the frontend template (lines 465 and
516): looser than the server-side one. -/
def client_allowed : List String :=
  [".edu", ".ac.", ".school", ".college"]

/-- Embedding of the frontend check
any(domain in email.lower() for domain in [...]): each entry is tested
as a substring of the whole lowercased email, not just its domain part. -/
def client_email_ok (email : String) : Bool :=
  client_allowed.any (fun d => decide (d.toList <:+: (lowerStr email).toList))

/-- Inputs of the frontend registration form (frontend template,
register_form, lines 480-505). -/
structure RegisterForm where
  full_name : String
  email : String
  password : String
  confirm_password : String
  role : String
  institution_input : String
  agree_terms : Bool
deriving DecidableEq, Repr

/-- The session state written by a successful client-side registration
(frontend template lines 520-524); logged_in is implied by existence. -/
structure Session where
  user_email : String
  user_role : String
  user_institution : String
  full_name : String
deriving DecidableEq, Repr

/-- Embedding of the client-side registration branch (frontend template
lines 507-525): the five checks in source order; st.error messages are
the error values; success builds the session state. Python truthiness of
a string is nonemptiness. -/
def register_form (f : RegisterForm) : Except String Session :=
  if f.full_name = "" ∨ f.email = "" ∨ f.password = "" ∨ f.institution_input = "" then
    .error "❌ Please fill in all required fields"
  else if f.password.length < 8 then
    .error "❌ Password must be at least 8 characters long"
  else if f.password ≠ f.confirm_password then
    .error "❌ Passwords do not match"
  else if f.agree_terms = false then
    .error "❌ Please agree to the terms and conditions"
  else if !(client_email_ok f.email) then
    .error "❌ Please use a valid educational email address (.edu, .ac.* domains)"
  else
    .ok ⟨f.email, lowerStr f.role, f.institution_input, f.full_name⟩

/-- C1 counterexample: the email user@x.school.nz has a domain containing
none of the five substrings the claim lists, yet validate_edu_email
returns true, because the code's allow-list also contains .school.nz. -/
theorem C1_counterexample :
    validate_edu_email "user@x.school.nz" = true ∧
    ([".edu", ".ac.", ".edu.in", ".ac.uk", ".edu.au"].any
      (fun d => decide (d.toList <:+:
        (lowerStr (domainPart "user@x.school.nz")).toList))) = false := by
  decide

/-- C1 (amended): the server-side validator returns true exactly when the
lowercased domain portion (the text after the last '@') contains one of
the six substrings .edu, .ac., .edu.in, .school.nz, .ac.uk, .edu.au. -/
theorem C1_validator_characterisation (email : String) :
    validate_edu_email email = true ↔
      ∃ d ∈ ([".edu", ".ac.", ".edu.in", ".school.nz", ".ac.uk", ".edu.au"] : List String),
        d.toList <:+: (lowerStr (domainPart email)).toList := by
  simp [validate_edu_email, allowed_domains, List.any_eq_true]

/-- C2 counterexample: the input x.edu contains no '@', yet the validator
returns true: split('@')[-1] of an at-sign-free string is the whole
string, not the empty string, and x.edu contains .edu. -/
theorem C2_counterexample :
    "x.edu".toList.contains '@' = false ∧
    validate_edu_email "x.edu" = true := by
  decide

/-- C2 (amended): an input with no '@' is treated as having the whole
string as its domain (not an empty domain); it fails validation exactly
when the lowercased string contains none of the allow-list substrings. -/
theorem C2_no_at_sign (s : String) (h : s.toList.contains '@' = false) :
    domainPart s = s ∧
    (validate_edu_email s = false ↔
      ∀ d ∈ allowed_domains, ¬ (d.toList <:+: (lowerStr s).toList)) := by
  have hnot : '@' ∉ s.toList := by simpa using h
  have hall : ∀ c ∈ s.toList.reverse, (fun c => decide (c ≠ '@')) c = true := by
    intro c hc
    have hmem : c ∈ s.toList := List.mem_reverse.mp hc
    simp only [decide_eq_true_eq]
    rintro rfl
    exact hnot hmem
  have hdom : domainPart s = s := by
    unfold domainPart
    rw [List.takeWhile_eq_self_iff.mpr hall, List.reverse_reverse]
    exact String.ext rfl
  refine ⟨hdom, ?_⟩
  have hv : validate_edu_email s =
      allowed_domains.any (fun d => decide (d.toList <:+: (lowerStr s).toList)) := by
    simp only [validate_edu_email, hdom]
  rw [hv, List.any_eq_false]
  simp

/-- C2 witness: instantiation at the at-sign-free input noatsign. -/
theorem C2_no_at_sign_witness :
    domainPart "noatsign" = "noatsign" ∧
    (validate_edu_email "noatsign" = false ↔
      ∀ d ∈ allowed_domains, ¬ (d.toList <:+: (lowerStr "noatsign").toList)) :=
  C2_no_at_sign "noatsign" (by decide)

/-- C3: from any store, registering a fresh email with a valid educational
domain succeeds and inserts the account; a second registration with the
same email then fails with the duplicate-account error and leaves the
store unchanged. -/
theorem C3_register_then_duplicate (db : Store) (u u' : UserRegister)
    (now now' : Nat)
    (hv : validate_edu_email u.email = true)
    (hfresh : lookup db u.email = none)
    (hsame : u'.email = u.email) :
    (register db u now).2 = .ok ⟨"Registration successful", u.email, u.role⟩ ∧
    lookup (register db u now).1 u.email =
      some ⟨u.full_name, hash_password u.password, u.role, u.institution, now⟩ ∧
    (register (register db u now).1 u' now').2 = .error duplicateAccountErr ∧
    (register (register db u now).1 u' now').1 = (register db u now).1 := by
  have hreg : register db u now =
      ((u.email,
         ⟨u.full_name, hash_password u.password, u.role, u.institution, now⟩) :: db,
       .ok ⟨"Registration successful", u.email, u.role⟩) := by
    simp [register, hv, hfresh]
  rw [hreg]
  refine ⟨rfl, ?_, ?_, ?_⟩
  · simp [lookup]
  · simp [register, hsame, hv, lookup]
  · simp [register, hsame, hv, lookup]

/-- C3 witness: instantiation registering a fresh valid email on the
empty store and then the same email again. -/
theorem C3_register_then_duplicate_witness :
    (register [] ⟨"Ann", "a@b.edu", "pw1", "student", "MIT"⟩ 0).2 =
      .ok ⟨"Registration successful", "a@b.edu", "student"⟩ ∧
    lookup (register [] ⟨"Ann", "a@b.edu", "pw1", "student", "MIT"⟩ 0).1 "a@b.edu" =
      some ⟨"Ann", hash_password "pw1", "student", "MIT", 0⟩ ∧
    (register (register [] ⟨"Ann", "a@b.edu", "pw1", "student", "MIT"⟩ 0).1
        ⟨"Bob", "a@b.edu", "pw2", "professor", "MIT"⟩ 1).2 = .error duplicateAccountErr ∧
    (register (register [] ⟨"Ann", "a@b.edu", "pw1", "student", "MIT"⟩ 0).1
        ⟨"Bob", "a@b.edu", "pw2", "professor", "MIT"⟩ 1).1 =
      (register [] ⟨"Ann", "a@b.edu", "pw1", "student", "MIT"⟩ 0).1 :=
  C3_register_then_duplicate [] ⟨"Ann", "a@b.edu", "pw1", "student", "MIT"⟩
    ⟨"Bob", "a@b.edu", "pw2", "professor", "MIT"⟩ 0 1 (by decide) rfl rfl

/-- C4: logging in with a stored account's email and the password whose
hash is stored succeeds and returns the stored role and full name. -/
theorem C4_login_success (db : Store) (email p : String) (acct : Account)
    (hl : lookup db email = some acct)
    (hh : acct.password_hash = hash_password p) :
    (login db ⟨email, p⟩).2 =
      .ok ⟨"Login successful", email, acct.role, acct.full_name⟩ := by
  simp [login, hl, verify_password, hh]

/-- C4 witness: instantiation on a one-account store. -/
theorem C4_login_success_witness :
    (login [("a@b.edu", ⟨"Ann", hash_password "pw1", "student", "MIT", 0⟩)]
        ⟨"a@b.edu", "pw1"⟩).2 =
      .ok ⟨"Login successful", "a@b.edu", "student", "Ann"⟩ :=
  C4_login_success [("a@b.edu", ⟨"Ann", hash_password "pw1", "student", "MIT", 0⟩)]
    "a@b.edu" "pw1" ⟨"Ann", hash_password "pw1", "student", "MIT", 0⟩
    (by simp [lookup]) rfl

/-- C5: login fails with the invalid-credentials error exactly when the
email is absent from the store or the password does not verify against
the stored hash, and every login outcome is either that single error
value (the same status 401 and message in both failure causes) or a
success, so a failed login does not reveal whether the email is
registered. -/
theorem C5_login_failure_uniform (db : Store) (ld : UserLogin) :
    ((login db ld).2 = .error invalidCredentialsErr ↔
      lookup db ld.email = none ∨
        ∃ a, lookup db ld.email = some a ∧
          verify_password ld.password a.password_hash = false) ∧
    ((login db ld).2 = .error invalidCredentialsErr ∨
      ∃ r, (login db ld).2 = .ok r) := by
  cases hl : lookup db ld.email with
  | none => simp [login, hl]
  | some a =>
    cases hv : verify_password ld.password a.password_hash with
    | false => simp [login, hl, hv]
    | true => simp [login, hl, hv]

/-- C6: verifying a password against its own hash succeeds, and verifying
a different password against that hash fails, in the spec-modelled
injective hash abstraction. -/
theorem C6_hash_verify_roundtrip (p q : String) (hne : p ≠ q) :
    verify_password p (hash_password p) = true ∧
    verify_password q (hash_password p) = false := by
  constructor
  · simp [verify_password]
  · have hneq : hash_password p ≠ hash_password q := by
      intro hEq
      apply hne
      apply String.ext
      have h2 := congrArg String.data hEq
      simp only [hash_password] at h2
      simpa [String.toList] using h2
    simp only [verify_password]
    exact beq_eq_false_iff_ne.mpr hneq

/-- C6 witness: instantiation at two distinct concrete passwords. -/
theorem C6_hash_verify_roundtrip_witness :
    verify_password "abc" (hash_password "abc") = true ∧
    verify_password "abd" (hash_password "abc") = false :=
  C6_hash_verify_roundtrip "abc" "abd" (by decide)

/-- C7: no failing operation leaves partial state: a register call either
returns the store unchanged or succeeds, and a login call always returns
the store unchanged. -/
theorem C7_failure_leaves_store (db : Store) (u : UserRegister)
    (ld : UserLogin) (now : Nat) :
    ((register db u now).1 = db ∨ ∃ r, (register db u now).2 = .ok r) ∧
    (login db ld).1 = db := by
  constructor
  · cases hv : validate_edu_email u.email with
    | false => exact Or.inl (by simp [register, hv])
    | true =>
      cases hl : lookup db u.email with
      | none =>
        exact Or.inr ⟨⟨"Registration successful", u.email, u.role⟩,
          by simp [register, hv, hl]⟩
      | some a => exact Or.inl (by simp [register, hv, hl])
  · cases hl : lookup db ld.email with
    | none => simp [login, hl]
    | some a =>
      cases hv : verify_password ld.password a.password_hash <;>
        simp [login, hl, hv]

/-- C8 counterexample: a registration request whose full name, password,
role and institution are all the empty string succeeds (the backend
register performs no non-emptiness check), instead of failing with a
validation error as the claim states. -/
theorem C8_counterexample :
    (register [] ⟨"", "a@b.edu", "", "", ""⟩ 0).2 =
      .ok ⟨"Registration successful", "a@b.edu", ""⟩ := by
  have hv : validate_edu_email "a@b.edu" = true := by decide
  simp [register, hv, lookup]

/-- C8 (amended): the backend registration checks only the email domain
and duplication; it succeeds exactly when the email validates and is not
yet a key of the store, regardless of any field being empty. -/
theorem C8_no_empty_field_check (db : Store) (u : UserRegister) (now : Nat) :
    (∃ r, (register db u now).2 = .ok r) ↔
      (validate_edu_email u.email = true ∧ lookup db u.email = none) := by
  cases hv : validate_edu_email u.email with
  | false => simp [register, hv]
  | true =>
    cases hl : lookup db u.email with
    | none => simp [register, hv, hl]
    | some a => simp [register, hv, hl]

/-- C9: in the client-side registration form, a password shorter than 8
characters, a password differing from its confirmation, or unaccepted
terms each make the submission fail with an error message, and no
session is created. -/
theorem C9_client_checks (f : RegisterForm)
    (h : f.password.length < 8 ∨ f.password ≠ f.confirm_password ∨
      f.agree_terms = false) :
    ∃ msg, register_form f = .error msg := by
  unfold register_form
  by_cases h1 : f.full_name = "" ∨ f.email = "" ∨ f.password = "" ∨
      f.institution_input = ""
  · exact ⟨_, by rw [if_pos h1]⟩
  · rw [if_neg h1]
    by_cases h2 : f.password.length < 8
    · exact ⟨_, by rw [if_pos h2]⟩
    · rw [if_neg h2]
      by_cases h3 : f.password ≠ f.confirm_password
      · exact ⟨_, by rw [if_pos h3]⟩
      · rw [if_neg h3]
        by_cases h4 : f.agree_terms = false
        · exact ⟨_, by rw [if_pos h4]⟩
        · exfalso
          rcases h with hlen | hneq | hterms
          · exact h2 hlen
          · exact h3 hneq
          · exact h4 hterms

/-- C9 witness: instantiation at a submission with a 5-character
password. -/
theorem C9_client_checks_witness :
    ∃ msg, register_form
      ⟨"Ann", "a@b.edu", "short", "short", "Student", "MIT", true⟩ =
        .error msg :=
  C9_client_checks ⟨"Ann", "a@b.edu", "short", "short", "Student", "MIT", true⟩
    (Or.inl (by decide))

/-- C10: the account store is keyed case-sensitively on the full email
string: when an email e is registered and a distinct case-variant e2 of
e is not, registering e2 (with a valid domain) passes the duplicate
check and creates a second account alongside the one for e, and logging
in as e2 does not find e's account, failing with the invalid-credentials
error. -/
theorem C10_exact_string_keying (db : Store) (e e2 p : String)
    (acct : Account) (u : UserRegister) (now : Nat)
    (hreg : lookup db e = some acct)
    (hne : e2 ≠ e)
    (_hcase : lowerStr e2 = lowerStr e)
    (hfresh : lookup db e2 = none)
    (hv : validate_edu_email e2 = true)
    (hu : u.email = e2) :
    (∃ r, (register db u now).2 = .ok r) ∧
    lookup (register db u now).1 e = some acct ∧
    lookup (register db u now).1 e2 =
      some ⟨u.full_name, hash_password u.password, u.role, u.institution, now⟩ ∧
    (login db ⟨e2, p⟩).2 = .error invalidCredentialsErr := by
  have hreg2 : register db u now =
      ((e2,
         ⟨u.full_name, hash_password u.password, u.role, u.institution, now⟩) :: db,
       .ok ⟨"Registration successful", e2, u.role⟩) := by
    simp [register, hu, hv, hfresh]
  rw [hreg2]
  refine ⟨⟨⟨"Registration successful", e2, u.role⟩, rfl⟩, ?_, ?_, ?_⟩
  · simp [lookup, hne, hreg]
  · simp [lookup]
  · simp [login, hfresh]

/-- C10 witness: A@b.edu is registered; its case-variant a@b.edu
registers as a second account and fails to log in. -/
theorem C10_exact_string_keying_witness :
    (∃ r, (register [("A@b.edu", ⟨"Ann", hash_password "pw", "student", "MIT", 0⟩)]
        ⟨"Bea", "a@b.edu", "pw2", "professor", "MIT"⟩ 1).2 = .ok r) ∧
    lookup (register [("A@b.edu", ⟨"Ann", hash_password "pw", "student", "MIT", 0⟩)]
        ⟨"Bea", "a@b.edu", "pw2", "professor", "MIT"⟩ 1).1 "A@b.edu" =
      some ⟨"Ann", hash_password "pw", "student", "MIT", 0⟩ ∧
    lookup (register [("A@b.edu", ⟨"Ann", hash_password "pw", "student", "MIT", 0⟩)]
        ⟨"Bea", "a@b.edu", "pw2", "professor", "MIT"⟩ 1).1 "a@b.edu" =
      some ⟨"Bea", hash_password "pw2", "professor", "MIT", 1⟩ ∧
    (login [("A@b.edu", ⟨"Ann", hash_password "pw", "student", "MIT", 0⟩)]
        ⟨"a@b.edu", "x"⟩).2 = .error invalidCredentialsErr :=
  C10_exact_string_keying
    [("A@b.edu", ⟨"Ann", hash_password "pw", "student", "MIT", 0⟩)]
    "A@b.edu" "a@b.edu" "x" ⟨"Ann", hash_password "pw", "student", "MIT", 0⟩
    ⟨"Bea", "a@b.edu", "pw2", "professor", "MIT"⟩ 1
    (by simp [lookup]) (by decide) (by decide) (by decide) (by decide) rfl

end GAIA
